import Mathlib

/-!
Shallow embedding of `src/mididevice.cpp` (MiniDexed MIDI ingestion/dispatch
engine): the channel map, the per-slot NRPN cursor state machine, the SysEx
decoder, the voice-dump broadcaster and the top-level message dispatcher
`CMIDIDevice::MIDIMessageHandler`.

Bytes are `Nat` (values of the C `u8` arguments); buffers are `List Nat`.
Every `pMessage[i]` read is modelled as `List.get?`, so an out-of-bounds
pointer read in the C++ (undefined behaviour) surfaces as `none` and aborts
the rest of the dispatch.  Calls into the synthesizer / UI / other-device
collaborators are recorded as an `Event` trace, in call order.  Logging
(`printf`, `LOGERR`, `LOGDBG`, `LOGNOTE`) has no semantic effect and is not
recorded, except that byte reads performed by log statements are modelled as
reads.
-/

namespace MiniDexed

/-- Modelled from the spec: the number of tone-generator slots
(`CConfig::ToneGenerators`, declared in `config.h`, which is not under
`src/`); the spec only requires that a fixed number of slots exist. -/
def ToneGenerators : Nat := 8

/-- Modelled from the spec: the channel-assignment value "respond on any
channel" (`TChannel::OmniMode` of `mididevice.h`, not under `src/`); the
channel map stores `{channel 0-15 | Disabled | Omni}`, so Omni is a value
distinct from every channel nibble and from Disabled. -/
def OmniMode : Nat := 16

/-- Modelled from the spec: the channel-assignment value "slot disabled"
(`TChannel::Disabled` of `mididevice.h`, not under `src/`). -/
def Disabled : Nat := 17

-- `#define` constants of mididevice.cpp (values 0-127 CC numbers etc.).
def MIDI_NOTE_OFF : Nat := 0b1000
def MIDI_NOTE_ON : Nat := 0b1001
def MIDI_CHANNEL_AFTERTOUCH : Nat := 0b1101
def MIDI_CONTROL_CHANGE : Nat := 0b1011
def MIDI_CC_BANK_SELECT_MSB : Nat := 0
def MIDI_CC_MODULATION : Nat := 1
def MIDI_CC_BREATH_CONTROLLER : Nat := 2
def MIDI_CC_FOOT_PEDAL : Nat := 4
def MIDI_CC_VOLUME : Nat := 7
def MIDI_CC_PAN_POSITION : Nat := 10
def MIDI_CC_BANK_SELECT_LSB : Nat := 32
def MIDI_CC_BANK_SUSTAIN : Nat := 64
def MIDI_CC_RESONANCE : Nat := 71
def MIDI_CC_FREQUENCY_CUTOFF : Nat := 74
def MIDI_CC_REVERB_LEVEL : Nat := 91
def MIDI_CC_DETUNE_LEVEL : Nat := 94
def MIDI_CC_ALL_SOUND_OFF : Nat := 120
def MIDI_CC_ALL_NOTES_OFF : Nat := 123
def MIDI_CC_NRPN_PARAM_MSB : Nat := 99
def MIDI_CC_NRPN_PARAM_LSB : Nat := 98
def MIDI_CC_NRPN_DATA_LSB : Nat := 38
def MIDI_PROGRAM_CHANGE : Nat := 0b1100
def MIDI_PITCH_BEND : Nat := 0b1110
def MIDI_SYSTEM_EXCLUSIVE_BEGIN : Nat := 0xF0
def MIDI_SYSTEM_EXCLUSIVE_END : Nat := 0xF7
def MIDI_NRPN_PROGRAM_CHANGE : Nat := 21

/-- Modelled from the spec: per-operator voice-parameter offsets (the
`DEXED_OP_*` enumerators of the Synth_Dexed collaborator header, not under
`src/`), in the spec's listed order: envelope rates and levels, keyboard
level-scaling break point, depths and curves, oscillator rate scale,
amplitude-modulation sensitivity, velocity sensitivity, output level,
oscillator mode, coarse, fine and detune. -/
def DEXED_OP_EG_R1 : Nat := 0
def DEXED_OP_EG_R2 : Nat := 1
def DEXED_OP_EG_R3 : Nat := 2
def DEXED_OP_EG_R4 : Nat := 3
def DEXED_OP_EG_L1 : Nat := 4
def DEXED_OP_EG_L2 : Nat := 5
def DEXED_OP_EG_L3 : Nat := 6
def DEXED_OP_EG_L4 : Nat := 7
def DEXED_OP_LEV_SCL_BRK_PT : Nat := 8
def DEXED_OP_SCL_LEFT_DEPTH : Nat := 9
def DEXED_OP_SCL_RGHT_DEPTH : Nat := 10
def DEXED_OP_SCL_LEFT_CURVE : Nat := 11
def DEXED_OP_SCL_RGHT_CURVE : Nat := 12
def DEXED_OP_OSC_RATE_SCALE : Nat := 13
def DEXED_OP_AMP_MOD_SENS : Nat := 14
def DEXED_OP_KEY_VEL_SENS : Nat := 15
def DEXED_OP_OUTPUT_LEV : Nat := 16
def DEXED_OP_OSC_MODE : Nat := 17
def DEXED_OP_FREQ_COARSE : Nat := 18
def DEXED_OP_FREQ_FINE : Nat := 19
def DEXED_OP_OSC_DETUNE : Nat := 20

/-- Modelled from the spec: voice-global parameter offsets (the `DEXED_*`
enumerators of the Synth_Dexed collaborator header, not under `src/`), in
the spec's listed order: pitch envelope rates and levels, algorithm,
feedback, oscillator key sync, LFO speed, delay, pitch depth, amp depth,
sync, waveform, pitch sensitivity, transpose. -/
def DEXED_PITCH_EG_R1 : Nat := 0
def DEXED_PITCH_EG_R2 : Nat := 1
def DEXED_PITCH_EG_R3 : Nat := 2
def DEXED_PITCH_EG_R4 : Nat := 3
def DEXED_PITCH_EG_L1 : Nat := 4
def DEXED_PITCH_EG_L2 : Nat := 5
def DEXED_PITCH_EG_L3 : Nat := 6
def DEXED_PITCH_EG_L4 : Nat := 7
def DEXED_ALGORITHM : Nat := 8
def DEXED_FEEDBACK : Nat := 9
def DEXED_OSC_KEY_SYNC : Nat := 10
def DEXED_LFO_SPEED : Nat := 11
def DEXED_LFO_DELAY : Nat := 12
def DEXED_LFO_PITCH_MOD_DEP : Nat := 13
def DEXED_LFO_AMP_MOD_DEP : Nat := 14
def DEXED_LFO_SYNC : Nat := 15
def DEXED_LFO_WAVE : Nat := 16
def DEXED_LFO_PITCH_MOD_SENS : Nat := 17
def DEXED_TRANSPOSE : Nat := 18

/-- Source function `scale` (mididevice.cpp line 66):
`uint8_t scale(uint8_t max, uint8_t value)` returns `value * max / 127`;
`Nat` division is the C unsigned (floor) division. -/
def scale (max value : Nat) : Nat := value * max / 127

/-- Modelled from the spec: the Arduino-style linear rescale `maplong` used
by the source for CC 71/74/91/94 (declared in a header not under `src/`):
`(x - in_min) * (out_max - out_min) / (in_max - in_min) + out_min` over C
`long` integers, whose division truncates toward zero (`Int.div`). -/
def maplong (x inMin inMax outMin outMax : Int) : Int :=
  Int.tdiv ((x - inMin) * (outMax - outMin)) (inMax - inMin) + outMin

/-- One observable collaborator call: a send to another registered MIDI
device (Thru forward or dump broadcast; `cable = none` models a `Send` call
that omits the optional port argument), or a synthesizer / UI mutation.
Constructor names follow the source call names; the final `Nat` of each
synthesizer call is the target tone-generator slot. -/
inductive Event where
  | send (dev : String) (msg : List Nat) (cable : Option Nat)
  | setMasterVolume (value : Nat)
  | uiMidiCmdHandler (ch status d1 d2 : Nat)
  | programChangePerformance (v : Nat)
  | keydown (note vel tg : Nat)
  | keyup (note tg : Nat)
  | setAftertouch (v tg : Nat)
  | controllersRefresh (tg : Nat)
  | setModWheel (v tg : Nat)
  | setFootController (v tg : Nat)
  | setBreathController (v tg : Nat)
  | setVolume (v tg : Nat)
  | setPan (v tg : Nat)
  | bankSelectMSB (v tg : Nat)
  | bankSelectLSB (v tg : Nat)
  | setSustain (b : Bool) (tg : Nat)
  | setResonance (v : Int) (tg : Nat)
  | setCutoff (v : Int) (tg : Nat)
  | setReverbSend (v : Int) (tg : Nat)
  | setMasterTune (v : Int) (tg : Nat)
  | panic (v tg : Nat)
  | notesOff (v tg : Nat)
  | programChange (v tg : Nat)
  | setPitchbend (v : Int) (tg : Nat)
  | setOPRate (op idx v tg : Nat)
  | setOPLevel (op idx v tg : Nat)
  | setOPKeyboardLevelScalingBreakPoint (op v tg : Nat)
  | setOPKeyboardLevelScalingDepthLeft (op v tg : Nat)
  | setOPKeyboardLevelScalingDepthRight (op v tg : Nat)
  | setOPKeyboardLevelScalingCurveLeft (op v tg : Nat)
  | setOPKeyboardLevelScalingCurveRight (op v tg : Nat)
  | setOPKeyboardRateScale (op v tg : Nat)
  | setOPAmpModulationSensity (op v tg : Nat)
  | setOPKeyboardVelocitySensity (op v tg : Nat)
  | setOPOutputLevel (op v tg : Nat)
  | setOPMode (op v tg : Nat)
  | setOPFrequencyCoarse (op v tg : Nat)
  | setOPFrequencyFine (op v tg : Nat)
  | setOPDetune (op v tg : Nat)
  | setPitchRate (idx v tg : Nat)
  | setPitchLevel (idx v tg : Nat)
  | setAlgorithm (v tg : Nat)
  | setFeedback (v tg : Nat)
  | setOscillatorSync (v tg : Nat)
  | setLFOSpeed (v tg : Nat)
  | setLFODelay (v tg : Nat)
  | setLFOPitchModulationDepth (v tg : Nat)
  | setLFOAmpModulationDepth (v tg : Nat)
  | setLFOSync (v tg : Nat)
  | setLFOWaveform (v tg : Nat)
  | setLFOPitchModulationSensitivity (v tg : Nat)
  | setTranspose (v tg : Nat)
  | setMonoMode (v tg : Nat)
  | setPitchbendRange (v tg : Nat)
  | setPitchbendStep (v tg : Nat)
  | setPortamentoMode (v tg : Nat)
  | setPortamentoGlissando (v tg : Nat)
  | setPortamentoTime (v tg : Nat)
  | setModWheelRange (v tg : Nat)
  | setModWheelTarget (v tg : Nat)
  | setFootControllerRange (v tg : Nat)
  | setFootControllerTarget (v tg : Nat)
  | setBreathControllerRange (v tg : Nat)
  | setBreathControllerTarget (v tg : Nat)
  | setAftertouchRange (v tg : Nat)
  | setAftertouchTarget (v tg : Nat)
  | loadVoiceParameters (msg : List Nat) (tg : Nat)
  | setVoiceDataElement (param v tg : Nat)

/-- The per-device mutable state of `CMIDIDevice`: the channel map and the
per-slot NRPN cursor (`m_ChannelMap`, `m_NRPNop`, `m_NRPNoffset`), as total
maps from the slot index. -/
structure DeviceState where
  channelMap : Nat → Nat
  nrpnOp : Nat → Nat
  nrpnOffset : Nat → Nat

/-- The constructor `CMIDIDevice::CMIDIDevice` initializes every slot to
`Disabled` channel and zero NRPN cursor. -/
def initialState : DeviceState :=
  { channelMap := fun _ => Disabled, nrpnOp := fun _ => 0, nrpnOffset := fun _ => 0 }

/-- Setter `CMIDIDevice::SetChannel` (bounds asserted in the source; claims
are stated for in-range slots). -/
def SetChannel (st : DeviceState) (ucChannel : Nat) (nTG : Nat) : DeviceState :=
  { st with channelMap := Function.update st.channelMap nTG ucChannel }

/-- Getter `CMIDIDevice::GetChannel`. -/
def GetChannel (st : DeviceState) (nTG : Nat) : Nat := st.channelMap nTG

/-- The configuration, collaborators and process-wide device registry seen
by one `CMIDIDevice`: config getters, the device's own registered name, the
`s_DeviceMap` registry (as its key list in map iteration order), the
synthesizer's SysEx classifier `checkSystemExclusive` and the voice-dump
packer `getSysExVoiceDump` (163 bytes, indexed by position). -/
structure Env where
  deviceName : String
  midiThruIn : String
  midiThruOut : String
  registry : List String
  midiRXProgramChange : Bool
  ignoreAllNotesOff : Bool
  performanceSelectChannel : Nat
  checkSystemExclusive : List Nat → Nat → Int
  getSysExVoiceDump : Nat → Fin 163 → Nat

/-- Method `CMIDIDevice::SendSystemExclusiveVoice`: packs the 163-byte dump of the
slot's current voice and sends it to every registered device; the `nVoice`
and `nCable` parameters are accepted but not used by the body, and the
`Send` call passes no port argument. -/
def SendSystemExclusiveVoice (env : Env) (nVoice : Nat) (nCable : Nat) (nTG : Nat) :
    List Event :=
  let voicedump := List.ofFn (env.getSysExVoiceDump nTG)
  env.registry.map (fun name => Event.send name voicedump none)

/-- The MIDI-Thru step at the top of `MIDIMessageHandler` (lines 164-174):
if this device is the configured Thru input and the configured Thru output
is registered, forward the raw buffer verbatim on the same cable. -/
def thruEvents (env : Env) (msg : List Nat) (nCable : Nat) : List Event :=
  if env.deviceName = env.midiThruIn ∧ env.registry.contains env.midiThruOut then
    [Event.send env.midiThruOut msg (some nCable)]
  else []

/-- The master-volume pattern test of line 189, with C++ `&&`
short-circuiting: `pMessage[0] == 0xF0 && pMessage[3] == 0x04 &&
pMessage[4] == 0x01 && pMessage[nLength-1] == 0xF7`.  A read past the end
of the buffer yields `none`. -/
def masterVolumeCheck (msg : List Nat) : Option Bool :=
  match msg.get? 0 with
  | none => none
  | some b0 =>
    if b0 ≠ MIDI_SYSTEM_EXCLUSIVE_BEGIN then some false
    else match msg.get? 3 with
      | none => none
      | some b3 =>
        if b3 ≠ 0x04 then some false
        else match msg.get? 4 with
          | none => none
          | some b4 =>
            if b4 ≠ 0x01 then some false
            else match msg.get? (msg.length - 1) with
              | none => none
              | some blast => some (decide (blast = MIDI_SYSTEM_EXCLUSIVE_END))

/-- The value passed to `setMasterVolume` on line 191:
`((pMessage[5] & 0x7c) & ((pMessage[6] & 0x7c) << 7)) / (1 << 14)` — an
integer division (the numerator and `1 << 14` are `int`), converted to
float only afterwards. -/
def masterVolumeArg (b5 b6 : Nat) : Nat :=
  ((b5 &&& 0x7c) &&& ((b6 &&& 0x7c) <<< 7)) / (1 <<< 14)

/-- The per-operator branch of the NRPN data-LSB commit (the inner
`switch (m_NRPNoffset[nTG])` of lines 381-445, taken when
`m_NRPNop[nTG] < 6`): `op` is the stored group, `offset` the stored
offset, `value` the CC 38 data byte.  Offsets outside the table fall
through the switch and commit nothing. -/
def opParamCommit (op offset value tg : Nat) : Option Event :=
  if offset = DEXED_OP_EG_R1 then some (Event.setOPRate op 0 (scale 99 value) tg)
  else if offset = DEXED_OP_EG_R2 then some (Event.setOPRate op 1 (scale 99 value) tg)
  else if offset = DEXED_OP_EG_R3 then some (Event.setOPRate op 2 (scale 99 value) tg)
  else if offset = DEXED_OP_EG_R4 then some (Event.setOPRate op 3 (scale 99 value) tg)
  else if offset = DEXED_OP_EG_L1 then some (Event.setOPLevel op 0 (scale 99 value) tg)
  else if offset = DEXED_OP_EG_L2 then some (Event.setOPLevel op 1 (scale 99 value) tg)
  else if offset = DEXED_OP_EG_L3 then some (Event.setOPLevel op 2 (scale 99 value) tg)
  else if offset = DEXED_OP_EG_L4 then some (Event.setOPLevel op 3 (scale 99 value) tg)
  else if offset = DEXED_OP_LEV_SCL_BRK_PT then
    some (Event.setOPKeyboardLevelScalingBreakPoint op (scale 99 value) tg)
  else if offset = DEXED_OP_SCL_LEFT_DEPTH then
    some (Event.setOPKeyboardLevelScalingDepthLeft op (scale 99 value) tg)
  else if offset = DEXED_OP_SCL_RGHT_DEPTH then
    some (Event.setOPKeyboardLevelScalingDepthRight op (scale 99 value) tg)
  else if offset = DEXED_OP_SCL_LEFT_CURVE then
    some (Event.setOPKeyboardLevelScalingCurveLeft op (scale 3 value) tg)
  else if offset = DEXED_OP_SCL_RGHT_CURVE then
    some (Event.setOPKeyboardLevelScalingCurveRight op (scale 3 value) tg)
  else if offset = DEXED_OP_OSC_RATE_SCALE then
    some (Event.setOPKeyboardRateScale op (scale 7 value) tg)
  else if offset = DEXED_OP_AMP_MOD_SENS then
    some (Event.setOPAmpModulationSensity op (scale 3 value) tg)
  else if offset = DEXED_OP_KEY_VEL_SENS then
    some (Event.setOPKeyboardVelocitySensity op (scale 7 value) tg)
  else if offset = DEXED_OP_OUTPUT_LEV then
    some (Event.setOPOutputLevel op (scale 99 value) tg)
  else if offset = DEXED_OP_OSC_MODE then some (Event.setOPMode op (scale 1 value) tg)
  else if offset = DEXED_OP_FREQ_COARSE then
    some (Event.setOPFrequencyCoarse op (scale 31 value) tg)
  else if offset = DEXED_OP_FREQ_FINE then
    some (Event.setOPFrequencyFine op (scale 99 value) tg)
  else if offset = DEXED_OP_OSC_DETUNE then
    some (Event.setOPDetune op (scale 14 value) tg)
  else none

/-- The voice-global branch of the NRPN data-LSB commit (the inner
`switch (m_NRPNoffset[nTG])` of lines 450-526, taken when
`m_NRPNop[nTG] == 6`). -/
def globalParamCommit (offset value tg : Nat) : Option Event :=
  if offset = DEXED_PITCH_EG_R1 then some (Event.setPitchRate 0 (scale 99 value) tg)
  else if offset = DEXED_PITCH_EG_R2 then some (Event.setPitchRate 1 (scale 99 value) tg)
  else if offset = DEXED_PITCH_EG_R3 then some (Event.setPitchRate 2 (scale 99 value) tg)
  else if offset = DEXED_PITCH_EG_R4 then some (Event.setPitchRate 3 (scale 99 value) tg)
  else if offset = DEXED_PITCH_EG_L1 then some (Event.setPitchLevel 0 (scale 99 value) tg)
  else if offset = DEXED_PITCH_EG_L2 then some (Event.setPitchLevel 1 (scale 99 value) tg)
  else if offset = DEXED_PITCH_EG_L3 then some (Event.setPitchLevel 2 (scale 99 value) tg)
  else if offset = DEXED_PITCH_EG_L4 then some (Event.setPitchLevel 3 (scale 99 value) tg)
  else if offset = DEXED_ALGORITHM then some (Event.setAlgorithm (scale 31 value) tg)
  else if offset = DEXED_FEEDBACK then some (Event.setFeedback (scale 7 value) tg)
  else if offset = DEXED_OSC_KEY_SYNC then
    some (Event.setOscillatorSync (scale 1 value) tg)
  else if offset = DEXED_LFO_SPEED then some (Event.setLFOSpeed (scale 99 value) tg)
  else if offset = DEXED_LFO_DELAY then some (Event.setLFODelay (scale 99 value) tg)
  else if offset = DEXED_LFO_PITCH_MOD_DEP then
    some (Event.setLFOPitchModulationDepth (scale 99 value) tg)
  else if offset = DEXED_LFO_AMP_MOD_DEP then
    some (Event.setLFOAmpModulationDepth (scale 99 value) tg)
  else if offset = DEXED_LFO_SYNC then some (Event.setLFOSync (scale 1 value) tg)
  else if offset = DEXED_LFO_WAVE then some (Event.setLFOWaveform (scale 4 value) tg)
  else if offset = DEXED_LFO_PITCH_MOD_SENS then
    some (Event.setLFOPitchModulationSensitivity (scale 7 value) tg)
  else if offset = DEXED_TRANSPOSE then some (Event.setTranspose (scale 48 value) tg)
  else none

/-- The NRPN data-LSB (CC 38) commit, lines 372-531.  If the stored offset
is the reserved program-change constant the commit is a program change
(and no dump is sent); otherwise the `m_NRPNop < 6` branch commits a
per-operator parameter and the `m_NRPNop == 6` branch a voice-global
parameter, each followed by a full voice-dump broadcast — the broadcast
happens even when the offset matches no table entry. -/
def handleNRPNDataLSB (env : Env) (st : DeviceState) (value tg : Nat) : List Event :=
  if st.nrpnOffset tg = MIDI_NRPN_PROGRAM_CHANGE then [Event.programChange value tg]
  else
    (if st.nrpnOp tg < 6 then
      (opParamCommit (st.nrpnOp tg) (st.nrpnOffset tg) value tg).toList
        ++ SendSystemExclusiveVoice env 0 0 tg
    else []) ++
    (if st.nrpnOp tg = 6 then
      (globalParamCommit (st.nrpnOffset tg) value tg).toList
        ++ SendSystemExclusiveVoice env 0 0 tg
    else [])

/-- The Control-Change sub-dispatch (`switch (pMessage[1])`, lines
287-533): `cc` is `pMessage[1]`, `value` is `pMessage[2]`.  Only CC 99
(param MSB, accepted when `≤ 6`) and CC 98 (param LSB) mutate the device
state; every other case leaves it unchanged. -/
def handleControlChange (env : Env) (st : DeviceState) (tg cc value : Nat) :
    List Event × DeviceState :=
  if cc = MIDI_CC_MODULATION then
    ([Event.setModWheel value tg, Event.controllersRefresh tg], st)
  else if cc = MIDI_CC_FOOT_PEDAL then
    ([Event.setFootController value tg, Event.controllersRefresh tg], st)
  else if cc = MIDI_CC_BREATH_CONTROLLER then
    ([Event.setBreathController value tg, Event.controllersRefresh tg], st)
  else if cc = MIDI_CC_VOLUME then ([Event.setVolume value tg], st)
  else if cc = MIDI_CC_PAN_POSITION then ([Event.setPan value tg], st)
  else if cc = MIDI_CC_BANK_SELECT_MSB then ([Event.bankSelectMSB value tg], st)
  else if cc = MIDI_CC_BANK_SELECT_LSB then ([Event.bankSelectLSB value tg], st)
  else if cc = MIDI_CC_BANK_SUSTAIN then
    ([Event.setSustain (decide (64 ≤ value)) tg], st)
  else if cc = MIDI_CC_RESONANCE then
    ([Event.setResonance (maplong value 0 127 0 99) tg], st)
  else if cc = MIDI_CC_FREQUENCY_CUTOFF then
    ([Event.setCutoff (maplong value 0 127 0 99) tg], st)
  else if cc = MIDI_CC_REVERB_LEVEL then
    ([Event.setReverbSend (maplong value 0 127 0 99) tg], st)
  else if cc = MIDI_CC_DETUNE_LEVEL then
    (if value = 0 then [Event.setMasterTune 0 tg]
     else [Event.setMasterTune (maplong value 1 127 (-99) 99) tg], st)
  else if cc = MIDI_CC_ALL_SOUND_OFF then ([Event.panic value tg], st)
  else if cc = MIDI_CC_ALL_NOTES_OFF then
    (if ¬env.ignoreAllNotesOff ∧ st.channelMap tg ≠ OmniMode then
      [Event.notesOff value tg]
     else [], st)
  else if cc = MIDI_CC_NRPN_PARAM_MSB then
    (if value ≤ 6 then ([], { st with nrpnOp := Function.update st.nrpnOp tg value })
     else ([], st))
  else if cc = MIDI_CC_NRPN_PARAM_LSB then
    ([], { st with nrpnOffset := Function.update st.nrpnOffset tg value })
  else if cc = MIDI_CC_NRPN_DATA_LSB then (handleNRPNDataLSB env st value tg, st)
  else ([], st)

/-- The function-parameter-change dispatch of `HandleSystemExclusive`
(classification codes 64-77, lines 619-674): each code maps 1:1 to a
voice-level control, with the value read from `pMessage[5]`. -/
def functionParamChange (code : Int) (b5 tg : Nat) : Event :=
  if code = 64 then Event.setMonoMode b5 tg
  else if code = 65 then Event.setPitchbendRange b5 tg
  else if code = 66 then Event.setPitchbendStep b5 tg
  else if code = 67 then Event.setPortamentoMode b5 tg
  else if code = 68 then Event.setPortamentoGlissando b5 tg
  else if code = 69 then Event.setPortamentoTime b5 tg
  else if code = 70 then Event.setModWheelRange b5 tg
  else if code = 71 then Event.setModWheelTarget b5 tg
  else if code = 72 then Event.setFootControllerRange b5 tg
  else if code = 73 then Event.setFootControllerTarget b5 tg
  else if code = 74 then Event.setBreathControllerRange b5 tg
  else if code = 75 then Event.setBreathControllerTarget b5 tg
  else if code = 76 then Event.setAftertouchRange b5 tg
  else Event.setAftertouchTarget b5 tg

/-- Method `CMIDIDevice::HandleSystemExclusive` (lines 578-704).  The frame is
classified by the synthesizer collaborator; the eleven negative codes are
log-only (frame dropped), code 200 (bank bulk upload) is an explicit
logged no-op, and any code outside the defined ranges falls through the
switch without effect.  The codes 64-77 log `pMessage[4]` and `pMessage[5]`
and read the value from `pMessage[5]`; codes in `[300,500)` read
`pMessage[3]`, `pMessage[4]` and `pMessage[5]`.  The device state is never
touched. -/
def HandleSystemExclusive (env : Env) (st : DeviceState) (msg : List Nat)
    (nCable tg : Nat) : Option (List Event × DeviceState) :=
  let sysex_return := env.checkSystemExclusive msg tg
  if 64 ≤ sysex_return ∧ sysex_return ≤ 77 then
    match msg.get? 4, msg.get? 5 with
    | some _, some b5 => some ([functionParamChange sysex_return b5 tg], st)
    | _, _ => none
  else if sysex_return = 100 then some ([Event.loadVoiceParameters msg tg], st)
  else if 300 ≤ sysex_return ∧ sysex_return < 500 then
    match msg.get? 3, msg.get? 4, msg.get? 5 with
    | some b3, some b4, some b5 =>
      let param := b4 + (b3 &&& 0x03) * 128
      some (Event.setVoiceDataElement param b5 tg ::
        (if param = 134 then [Event.notesOff 0 tg] else []), st)
    | _, _, _ => none
  else if 500 ≤ sysex_return ∧ sysex_return < 600 then
    some (SendSystemExclusiveVoice env (sysex_return - 500).toNat nCable tg, st)
  else some ([], st)

/-- The per-message-type dispatch inside the per-slot loop (the
`switch (ucType)` of lines 244-559), reached when the slot's channel
matches.  `ucType` is `pMessage[0] >> 4`. -/
def dispatchType (env : Env) (st : DeviceState) (msg : List Nat) (tg ucType : Nat) :
    Option (List Event × DeviceState) :=
  if ucType = MIDI_NOTE_ON then
    if msg.length < 3 then some ([], st)
    else match msg.get? 1, msg.get? 2 with
      | some note, some vel =>
        if 0 < vel then
          if vel ≤ 127 then some ([Event.keydown note vel tg], st)
          else some ([], st)
        else some ([Event.keyup note tg], st)
      | _, _ => none
  else if ucType = MIDI_NOTE_OFF then
    if msg.length < 3 then some ([], st)
    else match msg.get? 1 with
      | some note => some ([Event.keyup note tg], st)
      | none => none
  else if ucType = MIDI_CHANNEL_AFTERTOUCH then
    match msg.get? 1 with
    | some v => some ([Event.setAftertouch v tg, Event.controllersRefresh tg], st)
    | none => none
  else if ucType = MIDI_CONTROL_CHANGE then
    if msg.length < 3 then some ([], st)
    else match msg.get? 1, msg.get? 2 with
      | some cc, some value => some (handleControlChange env st tg cc value)
      | _, _ => none
  else if ucType = MIDI_PROGRAM_CHANGE then
    if env.midiRXProgramChange ∧ env.performanceSelectChannel = Disabled then
      match msg.get? 1 with
      | some p => some ([Event.programChange p tg], st)
      | none => none
    else some ([], st)
  else if ucType = MIDI_PITCH_BEND then
    if msg.length < 3 then some ([], st)
    else match msg.get? 1, msg.get? 2 with
      | some d1, some d2 =>
        some ([Event.setPitchbend (((d1 ||| (d2 <<< 7) : Nat) : Int) - 0x2000) tg], st)
      | _, _ => none
  else some ([], st)

/-- One iteration of the per-slot loop (lines 229-561): SysEx frames are
routed by the channel nibble of `pMessage[2]`, every other status byte by
the channel nibble of the status byte (`& 0x0F` is `% 16`, `>> 4` is
`/ 16`). -/
def processTG (env : Env) (msg : List Nat) (nCable : Nat) (st : DeviceState)
    (tg : Nat) : Option (List Event × DeviceState) :=
  let ucStatus := msg.headI
  if ucStatus = MIDI_SYSTEM_EXCLUSIVE_BEGIN then
    match msg.get? 2 with
    | some b2 =>
      if st.channelMap tg = b2 % 16 ∨ st.channelMap tg = OmniMode then
        HandleSystemExclusive env st msg nCable tg
      else some ([], st)
    | none => none
  else
    if st.channelMap tg = ucStatus % 16 ∨ st.channelMap tg = OmniMode then
      dispatchType env st msg tg (ucStatus / 16)
    else some ([], st)

/-- The whole per-slot loop, folded over the slot indices in order,
threading the device state and concatenating the event traces. -/
def processAllTGs (env : Env) (msg : List Nat) (nCable : Nat) :
    DeviceState → List Nat → Option (List Event × DeviceState)
  | st, [] => some ([], st)
  | st, tg :: rest =>
    match processTG env msg nCable st tg with
    | none => none
    | some (ev1, st1) =>
      match processAllTGs env msg nCable st1 rest with
      | none => none
      | some (ev2, st2) => some (ev1 ++ ev2, st2)

/-- The MiniDexed-level pre-pass before the per-slot loop (lines 197-224):
Note-On/Off/Control-Change of length ≥ 3 are forwarded to the UI;
Program-Change is routed to a performance-level program change when
enabled and a performance-select channel is configured. -/
def preEvents (env : Env) (msg : List Nat) : Option (List Event) :=
  let ucStatus := msg.headI
  let ucChannel := ucStatus % 16
  let ucType := ucStatus / 16
  if ucType = MIDI_CONTROL_CHANGE ∨ ucType = MIDI_NOTE_OFF ∨ ucType = MIDI_NOTE_ON then
    if msg.length < 3 then some []
    else match msg.get? 1, msg.get? 2 with
      | some d1, some d2 =>
        some [Event.uiMidiCmdHandler ucChannel (ucType * 16) d1 d2]
      | _, _ => none
  else if ucType = MIDI_PROGRAM_CHANGE then
    if env.midiRXProgramChange then
      if env.performanceSelectChannel ≠ Disabled then
        if ucChannel = env.performanceSelectChannel ∨
            env.performanceSelectChannel = OmniMode then
          match msg.get? 1 with
          | some d1 => some [Event.programChangePerformance d1]
          | none => none
        else some []
      else some []
    else some []
  else some []

/-- Method `CMIDIDevice::MIDIMessageHandler` (lines 102-565): Thru forward, then
the length-< 2 gate, then (under the spin lock) either the global
master-volume SysEx special case or the pre-pass followed by the per-slot
loop.  The returned event list is the trace of collaborator calls; a
second component of `none` means the C++ performed an out-of-bounds buffer
read (undefined behaviour), and the trace up to the Thru forward is kept. -/
def MIDIMessageHandler (env : Env) (st : DeviceState) (msg : List Nat)
    (nCable : Nat) : List Event × Option DeviceState :=
  let thru := thruEvents env msg nCable
  if msg.length < 2 then (thru, some st)
  else
    match masterVolumeCheck msg with
    | none => (thru, none)
    | some true =>
      match msg.get? 5, msg.get? 6 with
      | some b5, some b6 =>
        (thru ++ [Event.setMasterVolume (masterVolumeArg b5 b6)], some st)
      | _, _ => (thru, none)
    | some false =>
      match preEvents env msg with
      | none => (thru, none)
      | some pre =>
        match processAllTGs env msg nCable st (List.range ToneGenerators) with
        | none => (thru ++ pre, none)
        | some (evs, st2) => (thru ++ pre ++ evs, some st2)

/-- The NRPN register addressed by a stored `(group, offset)` cursor, as
committed by CC 38: group `< 6` selects the per-operator table, group `= 6`
the voice-global table. -/
def nrpnRegisterSetter (g o d tg : Nat) : Option Event :=
  if g < 6 then opParamCommit g o d tg
  else if g = 6 then globalParamCommit o d tg
  else none

/-- The register `(group, offset)` pairs that address an NRPN-writable
parameter: per-operator offsets 0-20 for groups 0-5, voice-global offsets
0-18 for group 6 (the reserved program-change offset 21 lies outside both
tables). -/
def validRegister (g o : Nat) : Prop := (g < 6 ∧ o ≤ 20) ∨ (g = 6 ∧ o ≤ 18)

instance (g o : Nat) : Decidable (validRegister g o) := by
  unfold validRegister
  infer_instance

/-- The rescale ceiling of each NRPN register, read off the `scale` calls
of the commit tables. -/
def registerCeiling (g o : Nat) : Nat :=
  if g < 6 then
    if o = DEXED_OP_SCL_LEFT_CURVE ∨ o = DEXED_OP_SCL_RGHT_CURVE ∨
        o = DEXED_OP_AMP_MOD_SENS then 3
    else if o = DEXED_OP_OSC_RATE_SCALE ∨ o = DEXED_OP_KEY_VEL_SENS then 7
    else if o = DEXED_OP_OSC_MODE then 1
    else if o = DEXED_OP_FREQ_COARSE then 31
    else if o = DEXED_OP_OSC_DETUNE then 14
    else 99
  else
    if o = DEXED_ALGORITHM then 31
    else if o = DEXED_FEEDBACK ∨ o = DEXED_LFO_PITCH_MOD_SENS then 7
    else if o = DEXED_OSC_KEY_SYNC ∨ o = DEXED_LFO_SYNC then 1
    else if o = DEXED_LFO_WAVE then 4
    else if o = DEXED_TRANSPOSE then 48
    else 99

/-- Events that are NRPN-register parameter setters (the two commit
tables); dump sends, program changes and all other calls are not. -/
def isParamSetter : Event → Bool
  | Event.setOPRate _ _ _ _ => true
  | Event.setOPLevel _ _ _ _ => true
  | Event.setOPKeyboardLevelScalingBreakPoint _ _ _ => true
  | Event.setOPKeyboardLevelScalingDepthLeft _ _ _ => true
  | Event.setOPKeyboardLevelScalingDepthRight _ _ _ => true
  | Event.setOPKeyboardLevelScalingCurveLeft _ _ _ => true
  | Event.setOPKeyboardLevelScalingCurveRight _ _ _ => true
  | Event.setOPKeyboardRateScale _ _ _ => true
  | Event.setOPAmpModulationSensity _ _ _ => true
  | Event.setOPKeyboardVelocitySensity _ _ _ => true
  | Event.setOPOutputLevel _ _ _ => true
  | Event.setOPMode _ _ _ => true
  | Event.setOPFrequencyCoarse _ _ _ => true
  | Event.setOPFrequencyFine _ _ _ => true
  | Event.setOPDetune _ _ _ => true
  | Event.setPitchRate _ _ _ => true
  | Event.setPitchLevel _ _ _ => true
  | Event.setAlgorithm _ _ => true
  | Event.setFeedback _ _ => true
  | Event.setOscillatorSync _ _ => true
  | Event.setLFOSpeed _ _ => true
  | Event.setLFODelay _ _ => true
  | Event.setLFOPitchModulationDepth _ _ => true
  | Event.setLFOAmpModulationDepth _ _ => true
  | Event.setLFOSync _ _ => true
  | Event.setLFOWaveform _ _ => true
  | Event.setLFOPitchModulationSensitivity _ _ => true
  | Event.setTranspose _ _ => true
  | _ => false

/-- The (rescaled) value argument of an NRPN-register setter event. -/
def paramSetterValue : Event → Nat
  | Event.setOPRate _ _ v _ => v
  | Event.setOPLevel _ _ v _ => v
  | Event.setOPKeyboardLevelScalingBreakPoint _ v _ => v
  | Event.setOPKeyboardLevelScalingDepthLeft _ v _ => v
  | Event.setOPKeyboardLevelScalingDepthRight _ v _ => v
  | Event.setOPKeyboardLevelScalingCurveLeft _ v _ => v
  | Event.setOPKeyboardLevelScalingCurveRight _ v _ => v
  | Event.setOPKeyboardRateScale _ v _ => v
  | Event.setOPAmpModulationSensity _ v _ => v
  | Event.setOPKeyboardVelocitySensity _ v _ => v
  | Event.setOPOutputLevel _ v _ => v
  | Event.setOPMode _ v _ => v
  | Event.setOPFrequencyCoarse _ v _ => v
  | Event.setOPFrequencyFine _ v _ => v
  | Event.setOPDetune _ v _ => v
  | Event.setPitchRate _ v _ => v
  | Event.setPitchLevel _ v _ => v
  | Event.setAlgorithm v _ => v
  | Event.setFeedback v _ => v
  | Event.setOscillatorSync v _ => v
  | Event.setLFOSpeed v _ => v
  | Event.setLFODelay v _ => v
  | Event.setLFOPitchModulationDepth v _ => v
  | Event.setLFOAmpModulationDepth v _ => v
  | Event.setLFOSync v _ => v
  | Event.setLFOWaveform v _ => v
  | Event.setLFOPitchModulationSensitivity v _ => v
  | Event.setTranspose v _ => v
  | _ => 0

/-- Events that are sends to another registered device. -/
def isSend : Event → Bool
  | Event.send _ _ _ => true
  | _ => false

/-- Key-down events targeting slot `tg`. -/
def isKeydownFor (tg : Nat) : Event → Bool
  | Event.keydown _ _ t => t = tg
  | _ => false

/-- Key-up events targeting slot `tg`. -/
def isKeyupFor (tg : Nat) : Event → Bool
  | Event.keyup _ t => t = tg
  | _ => false

/-- Master-tune (`SetMasterTune`) events targeting slot `tg`. -/
def isMasterTuneFor (tg : Nat) : Event → Bool
  | Event.setMasterTune _ t => t = tg
  | _ => false

/-- The SysEx classification codes the decoder acts on: the
function-parameter range 64-77, voice bulk 100, bank bulk 200, the voice
parameter range `[300,500)` and the dump-request range `[500,600)`. -/
def definedSysExCode (c : Int) : Prop :=
  (64 ≤ c ∧ c ≤ 77) ∨ c = 100 ∨ c = 200 ∨ (300 ≤ c ∧ c < 500) ∨ (500 ≤ c ∧ c < 600)

instance (c : Int) : Decidable (definedSysExCode c) := by
  unfold definedSysExCode
  infer_instance

/-- Modelled from the spec (the claimed master-volume arithmetic, for
comparison with `masterVolumeArg`): the 14-bit combination of the two
7-bit payload fields at offsets 5 and 6 — low field plus high field
shifted left by 7 — divided by `2 ^ 14`. -/
def specMasterVolume (b5 b6 : Nat) : ℚ :=
  (((b5 &&& 0x7F) + ((b6 &&& 0x7F) <<< 7) : Nat) : ℚ) / 2 ^ 14

/-- Messages whose per-slot dispatch selects an NRPN cursor register: a
Control-Change with CC number 98 (param LSB) or 99 (param MSB). -/
def nrpnSelectCC (msg : List Nat) : Prop :=
  msg.headI / 16 = MIDI_CONTROL_CHANGE ∧
    (msg.get? 1 = some MIDI_CC_NRPN_PARAM_LSB ∨ msg.get? 1 = some MIDI_CC_NRPN_PARAM_MSB)

instance (msg : List Nat) : Decidable (nrpnSelectCC msg) := by
  unfold nrpnSelectCC
  infer_instance

/-- What one slot contributes for a Control-Change message on channel
`ch`: the CC sub-dispatch if the slot's channel matches, nothing
otherwise. -/
def ccSlot (env : Env) (st : DeviceState) (ch tg cc value : Nat) :
    List Event × DeviceState :=
  if st.channelMap tg = ch ∨ st.channelMap tg = OmniMode then
    handleControlChange env st tg cc value
  else ([], st)

/-- What one slot contributes for a Note-On message on channel `ch`. -/
def noteOnSlot (st : DeviceState) (ch note vel tg : Nat) : List Event :=
  if st.channelMap tg = ch ∨ st.channelMap tg = OmniMode then
    if 0 < vel then
      if vel ≤ 127 then [Event.keydown note vel tg] else []
    else [Event.keyup note tg]
  else []

/-- A sample environment whose device is the configured Thru input. -/
def envA : Env :=
  { deviceName := "umidi1", midiThruIn := "umidi1", midiThruOut := "ttyS1",
    registry := ["ttyS1", "umidi1"], midiRXProgramChange := true,
    ignoreAllNotesOff := false, performanceSelectChannel := Disabled,
    checkSystemExclusive := fun _ _ => -11, getSysExVoiceDump := fun _ _ => 0 }

/-- A sample environment whose device is not the configured Thru input. -/
def envB : Env :=
  { deviceName := "umidi2", midiThruIn := "umidi1", midiThruOut := "ttyS1",
    registry := ["ttyS1", "umidi1"], midiRXProgramChange := true,
    ignoreAllNotesOff := false, performanceSelectChannel := Disabled,
    checkSystemExclusive := fun _ _ => -11, getSysExVoiceDump := fun _ _ => 0 }

/-- A sample environment for the voice-dump-request counterexample: one
registered device, every frame classified as a request for voice 5. -/
def envC : Env :=
  { deviceName := "umidi2", midiThruIn := "umidi1", midiThruOut := "ttyS1",
    registry := ["a"], midiRXProgramChange := true,
    ignoreAllNotesOff := false, performanceSelectChannel := Disabled,
    checkSystemExclusive := fun _ _ => 505, getSysExVoiceDump := fun _ _ => 0 }

/-- A sample device state: slot 2 listens on channel 5, every NRPN cursor
points at group 3, offset 16 (operator output level). -/
def stA : DeviceState :=
  { channelMap := fun tg => if tg = 2 then 5 else Disabled,
    nrpnOp := fun _ => 3, nrpnOffset := fun _ => 16 }

lemma flatMap_nil_of {α : Type} (f : Nat → List α) :
    ∀ l : List Nat, (∀ x ∈ l, f x = []) → l.flatMap f = [] := by
  intro l
  induction l with
  | nil => intro _; rfl
  | cons a rest ih =>
    intro h
    simp only [List.flatMap_cons, h a (by simp), List.nil_append]
    exact ih (fun x hx => h x (by simp [hx]))

lemma flatMap_eq_single {α : Type} (f : Nat → List α) (tg : Nat) :
    ∀ l : List Nat, tg ∈ l → l.Nodup → (∀ x ∈ l, x ≠ tg → f x = []) →
      l.flatMap f = f tg := by
  intro l
  induction l with
  | nil => intro h; cases h
  | cons a rest ih =>
    intro hmem hnd hother
    rcases List.mem_cons.mp hmem with rfl | hmem2
    · have hrest : ∀ x ∈ rest, f x = [] := fun x hx =>
        hother x (by simp [hx]) (fun hEq => (List.nodup_cons.mp hnd).1 (hEq ▸ hx))
      simp [List.flatMap_cons, flatMap_nil_of f rest hrest]
    · have ha : f a = [] :=
        hother a (by simp) (fun hEq => (List.nodup_cons.mp hnd).1 (hEq ▸ hmem2))
      simp only [List.flatMap_cons, ha, List.nil_append]
      exact ih hmem2 (List.nodup_cons.mp hnd).2 (fun x hx => hother x (by simp [hx]))

lemma filter_flatMap_nil {α : Type} (f : Nat → List α) (p : α → Bool) :
    ∀ l : List Nat, (∀ x ∈ l, (f x).filter p = []) → (l.flatMap f).filter p = [] := by
  intro l
  induction l with
  | nil => intro _; rfl
  | cons a rest ih =>
    intro h
    simp only [List.flatMap_cons, List.filter_append, h a (by simp), List.nil_append]
    exact ih (fun x hx => h x (by simp [hx]))

lemma filter_flatMap_single {α : Type} (f : Nat → List α) (p : α → Bool) (tg : Nat) :
    ∀ l : List Nat, tg ∈ l → l.Nodup → (∀ x ∈ l, x ≠ tg → (f x).filter p = []) →
      (l.flatMap f).filter p = (f tg).filter p := by
  intro l
  induction l with
  | nil => intro h; cases h
  | cons a rest ih =>
    intro hmem hnd hother
    rcases List.mem_cons.mp hmem with rfl | hmem2
    · have hrest : ∀ x ∈ rest, (f x).filter p = [] := fun x hx =>
        hother x (by simp [hx]) (fun hEq => (List.nodup_cons.mp hnd).1 (hEq ▸ hx))
      simp [List.flatMap_cons, List.filter_append, filter_flatMap_nil f p rest hrest]
    · have ha : (f a).filter p = [] :=
        hother a (by simp) (fun hEq => (List.nodup_cons.mp hnd).1 (hEq ▸ hmem2))
      simp only [List.flatMap_cons, List.filter_append, ha, List.nil_append]
      exact ih hmem2 (List.nodup_cons.mp hnd).2 (fun x hx => hother x (by simp [hx]))

lemma processAllTGs_pure (env : Env) (msg : List Nat) (nCable : Nat)
    (st : DeviceState) (f : Nat → List Event) :
    ∀ l : List Nat, (∀ tg ∈ l, processTG env msg nCable st tg = some (f tg, st)) →
      processAllTGs env msg nCable st l = some (l.flatMap f, st) := by
  intro l
  induction l with
  | nil => intro _; rfl
  | cons a rest ih =>
    intro h
    have ha := h a (by simp)
    have hr := ih (fun tg htg => h tg (by simp [htg]))
    simp [processAllTGs, ha, hr]

lemma thruEvents_filter (env : Env) (msg : List Nat) (nCable : Nat) (p : Event → Bool)
    (h : ∀ d m c, p (Event.send d m c) = false) :
    (thruEvents env msg nCable).filter p = [] := by
  unfold thruEvents
  split <;> simp [h]

lemma masterVolumeCheck_nonSysEx (msg : List Nat) (b : Nat) (h0 : msg.get? 0 = some b)
    (hb : b ≠ 0xF0) : masterVolumeCheck msg = some false := by
  unfold masterVolumeCheck
  rw [h0]
  simp [MIDI_SYSTEM_EXCLUSIVE_BEGIN, hb]

lemma preEvents_cc (env : Env) (s d1 d2 : Nat) (hty : s / 16 = 11) :
    preEvents env [s, d1, d2] =
      some [Event.uiMidiCmdHandler (s % 16) 176 d1 d2] := by
  unfold preEvents
  simp [List.headI, hty, MIDI_CONTROL_CHANGE, MIDI_NOTE_OFF, MIDI_NOTE_ON, List.get?]

lemma preEvents_noteOn (env : Env) (s d1 d2 : Nat) (hty : s / 16 = 9) :
    preEvents env [s, d1, d2] =
      some [Event.uiMidiCmdHandler (s % 16) 144 d1 d2] := by
  unfold preEvents
  simp [List.headI, hty, MIDI_CONTROL_CHANGE, MIDI_NOTE_OFF, MIDI_NOTE_ON, List.get?]

lemma processTG_cc (env : Env) (st : DeviceState) (nCable ch cc v tg : Nat)
    (hch : ch < 16) :
    processTG env [176 + ch, cc, v] nCable st tg = some (ccSlot env st ch tg cc v) := by
  have h1 : (176 + ch) % 16 = ch := by omega
  have h2 : (176 + ch) / 16 = 11 := by omega
  have h3 : ¬(176 + ch = 240) := by omega
  unfold processTG ccSlot dispatchType
  simp only [List.headI, MIDI_SYSTEM_EXCLUSIVE_BEGIN, MIDI_NOTE_ON, MIDI_NOTE_OFF,
    MIDI_CHANNEL_AFTERTOUCH, MIDI_CONTROL_CHANGE, MIDI_PROGRAM_CHANGE, MIDI_PITCH_BEND,
    h1, h2, h3, List.get?, if_false, List.length_cons, List.length_nil]
  norm_num
  split <;> rfl

lemma processTG_noteOn (env : Env) (st : DeviceState) (nCable ch note vel tg : Nat)
    (hch : ch < 16) :
    processTG env [144 + ch, note, vel] nCable st tg =
      some (noteOnSlot st ch note vel tg, st) := by
  have h1 : (144 + ch) % 16 = ch := by omega
  have h2 : (144 + ch) / 16 = 9 := by omega
  have h3 : ¬(144 + ch = 240) := by omega
  unfold processTG noteOnSlot dispatchType
  simp only [List.headI, MIDI_SYSTEM_EXCLUSIVE_BEGIN, MIDI_NOTE_ON, MIDI_NOTE_OFF,
    MIDI_CHANNEL_AFTERTOUCH, MIDI_CONTROL_CHANGE, MIDI_PROGRAM_CHANGE, MIDI_PITCH_BEND,
    h1, h2, h3, List.get?, if_false, List.length_cons, List.length_nil]
  norm_num
  split <;> [skip; rfl]
  split <;> [skip; rfl]
  split <;> rfl

lemma MIDIMessageHandler_cc (env : Env) (st : DeviceState) (nCable ch cc v : Nat)
    (hch : ch < 16) (hpure : ∀ tg, (ccSlot env st ch tg cc v).2 = st) :
    MIDIMessageHandler env st [176 + ch, cc, v] nCable =
      (thruEvents env [176 + ch, cc, v] nCable ++
        Event.uiMidiCmdHandler ch 176 cc v ::
          (List.range ToneGenerators).flatMap (fun tg => (ccSlot env st ch tg cc v).1),
        some st) := by
  have hmv : masterVolumeCheck [176 + ch, cc, v] = some false :=
    masterVolumeCheck_nonSysEx _ _ rfl (by omega)
  have hpre : preEvents env [176 + ch, cc, v] =
      some [Event.uiMidiCmdHandler ch 176 cc v] := by
    have := preEvents_cc env (176 + ch) cc v (by omega)
    rwa [show (176 + ch) % 16 = ch by omega] at this
  have hfold : processAllTGs env [176 + ch, cc, v] nCable st (List.range ToneGenerators)
      = some ((List.range ToneGenerators).flatMap
          (fun tg => (ccSlot env st ch tg cc v).1), st) := by
    apply processAllTGs_pure
    intro tg _
    rw [processTG_cc env st nCable ch cc v tg hch]
    exact congrArg some (Prod.ext rfl (hpure tg))
  unfold MIDIMessageHandler
  simp [hmv, hpre, hfold]

lemma MIDIMessageHandler_noteOn (env : Env) (st : DeviceState) (nCable ch note vel : Nat)
    (hch : ch < 16) :
    MIDIMessageHandler env st [144 + ch, note, vel] nCable =
      (thruEvents env [144 + ch, note, vel] nCable ++
        Event.uiMidiCmdHandler ch 144 note vel ::
          (List.range ToneGenerators).flatMap (noteOnSlot st ch note vel),
        some st) := by
  have hmv : masterVolumeCheck [144 + ch, note, vel] = some false :=
    masterVolumeCheck_nonSysEx _ _ rfl (by omega)
  have hpre : preEvents env [144 + ch, note, vel] =
      some [Event.uiMidiCmdHandler ch 144 note vel] := by
    have := preEvents_noteOn env (144 + ch) note vel (by omega)
    rwa [show (144 + ch) % 16 = ch by omega] at this
  have hfold : processAllTGs env [144 + ch, note, vel] nCable st (List.range ToneGenerators)
      = some ((List.range ToneGenerators).flatMap (noteOnSlot st ch note vel), st) := by
    apply processAllTGs_pure
    intro tg _
    exact processTG_noteOn env st nCable ch note vel tg hch
  unfold MIDIMessageHandler
  simp [hmv, hpre, hfold]

set_option maxHeartbeats 2000000 in
lemma handleControlChange_state_eq (env : Env) (st : DeviceState) (tg cc value : Nat)
    (h98 : cc ≠ 98) (h99 : cc ≠ 99) (ev : List Event) (st2 : DeviceState)
    (h : handleControlChange env st tg cc value = (ev, st2)) : st2 = st := by
  unfold handleControlChange at h
  rcases eq_or_ne cc MIDI_CC_MODULATION with hc1 | hc1
  · rw [if_pos hc1] at h; cases h; rfl
  rw [if_neg hc1] at h
  rcases eq_or_ne cc MIDI_CC_FOOT_PEDAL with hc2 | hc2
  · rw [if_pos hc2] at h; cases h; rfl
  rw [if_neg hc2] at h
  rcases eq_or_ne cc MIDI_CC_BREATH_CONTROLLER with hc3 | hc3
  · rw [if_pos hc3] at h; cases h; rfl
  rw [if_neg hc3] at h
  rcases eq_or_ne cc MIDI_CC_VOLUME with hc4 | hc4
  · rw [if_pos hc4] at h; cases h; rfl
  rw [if_neg hc4] at h
  rcases eq_or_ne cc MIDI_CC_PAN_POSITION with hc5 | hc5
  · rw [if_pos hc5] at h; cases h; rfl
  rw [if_neg hc5] at h
  rcases eq_or_ne cc MIDI_CC_BANK_SELECT_MSB with hc6 | hc6
  · rw [if_pos hc6] at h; cases h; rfl
  rw [if_neg hc6] at h
  rcases eq_or_ne cc MIDI_CC_BANK_SELECT_LSB with hc7 | hc7
  · rw [if_pos hc7] at h; cases h; rfl
  rw [if_neg hc7] at h
  rcases eq_or_ne cc MIDI_CC_BANK_SUSTAIN with hc8 | hc8
  · rw [if_pos hc8] at h; cases h; rfl
  rw [if_neg hc8] at h
  rcases eq_or_ne cc MIDI_CC_RESONANCE with hc9 | hc9
  · rw [if_pos hc9] at h; cases h; rfl
  rw [if_neg hc9] at h
  rcases eq_or_ne cc MIDI_CC_FREQUENCY_CUTOFF with hc10 | hc10
  · rw [if_pos hc10] at h; cases h; rfl
  rw [if_neg hc10] at h
  rcases eq_or_ne cc MIDI_CC_REVERB_LEVEL with hc11 | hc11
  · rw [if_pos hc11] at h; cases h; rfl
  rw [if_neg hc11] at h
  rcases eq_or_ne cc MIDI_CC_DETUNE_LEVEL with hc12 | hc12
  · rw [if_pos hc12] at h; cases h; rfl
  rw [if_neg hc12] at h
  rcases eq_or_ne cc MIDI_CC_ALL_SOUND_OFF with hc13 | hc13
  · rw [if_pos hc13] at h; cases h; rfl
  rw [if_neg hc13] at h
  rcases eq_or_ne cc MIDI_CC_ALL_NOTES_OFF with hc14 | hc14
  · rw [if_pos hc14] at h; cases h; rfl
  rw [if_neg hc14] at h
  rcases eq_or_ne cc MIDI_CC_NRPN_PARAM_MSB with hc15 | hc15
  · exact absurd hc15 h99
  rw [if_neg hc15] at h
  rcases eq_or_ne cc MIDI_CC_NRPN_PARAM_LSB with hc16 | hc16
  · exact absurd hc16 h98
  rw [if_neg hc16] at h
  rcases eq_or_ne cc MIDI_CC_NRPN_DATA_LSB with hc17 | hc17
  · rw [if_pos hc17] at h; cases h; rfl
  rw [if_neg hc17] at h
  cases h; rfl

lemma handleControlChange_state (env : Env) (st : DeviceState) (tg cc value : Nat)
    (h98 : cc ≠ 98) (h99 : cc ≠ 99) :
    (handleControlChange env st tg cc value).2 = st :=
  handleControlChange_state_eq env st tg cc value h98 h99 _ _ rfl

lemma handleControlChange_99_state (env : Env) (st : DeviceState) (tg v : Nat)
    (hv : 6 < v) : (handleControlChange env st tg 99 v).2 = st := by
  have h6 : ¬ v ≤ 6 := by omega
  unfold handleControlChange
  simp [MIDI_CC_MODULATION, MIDI_CC_FOOT_PEDAL, MIDI_CC_BREATH_CONTROLLER,
    MIDI_CC_VOLUME, MIDI_CC_PAN_POSITION, MIDI_CC_BANK_SELECT_MSB, MIDI_CC_BANK_SELECT_LSB,
    MIDI_CC_BANK_SUSTAIN, MIDI_CC_RESONANCE, MIDI_CC_FREQUENCY_CUTOFF, MIDI_CC_REVERB_LEVEL,
    MIDI_CC_DETUNE_LEVEL, MIDI_CC_ALL_SOUND_OFF, MIDI_CC_ALL_NOTES_OFF,
    MIDI_CC_NRPN_PARAM_MSB, MIDI_CC_NRPN_PARAM_LSB, MIDI_CC_NRPN_DATA_LSB, h6]

lemma HandleSystemExclusive_state (env : Env) (st : DeviceState) (msg : List Nat)
    (nCable tg : Nat) (ev : List Event) (st2 : DeviceState)
    (h : HandleSystemExclusive env st msg nCable tg = some (ev, st2)) : st2 = st := by
  simp only [HandleSystemExclusive] at h
  split at h
  · split at h <;> simp_all
  · split at h
    · simp_all
    · split at h
      · split at h <;> simp_all
      · split at h <;> simp_all

lemma dispatchType_state (env : Env) (st : DeviceState) (msg : List Nat)
    (tg ucType : Nat) (ev : List Event) (st2 : DeviceState)
    (hcc : ∀ cc value, ucType = MIDI_CONTROL_CHANGE → msg.get? 1 = some cc →
      msg.get? 2 = some value → (handleControlChange env st tg cc value).2 = st)
    (h : dispatchType env st msg tg ucType = some (ev, st2)) : st2 = st := by
  simp only [dispatchType] at h
  repeat' split at h
  all_goals
    first
      | (rename_i heq1 heq2
         exact ((congrArg Prod.snd (Option.some.inj h)).symm).trans
           (hcc _ _ (by assumption) heq1 heq2))
      | simp_all

lemma processTG_state (env : Env) (st : DeviceState) (msg : List Nat)
    (nCable tg : Nat) (ev : List Event) (st2 : DeviceState)
    (hmsg : ¬ nrpnSelectCC msg)
    (h : processTG env msg nCable st tg = some (ev, st2)) : st2 = st := by
  simp only [processTG] at h
  split at h
  · split at h
    · split at h
      · exact HandleSystemExclusive_state env st msg nCable tg ev st2 h
      · simp_all
    · simp_all
  · split at h
    · refine dispatchType_state env st msg tg _ ev st2 ?_ h
      intro cc value h11 hget _
      have hne98 : cc ≠ 98 := fun hEq =>
        hmsg ⟨h11, Or.inl (by rw [hget, hEq]; rfl)⟩
      have hne99 : cc ≠ 99 := fun hEq =>
        hmsg ⟨h11, Or.inr (by rw [hget, hEq]; rfl)⟩
      exact handleControlChange_state env st tg cc value hne98 hne99
    · simp_all

set_option maxHeartbeats 2000000 in
lemma nrpnRegisterSetter_spec (g o d tg : Nat) (h : validRegister g o) :
    (nrpnRegisterSetter g o d tg).isSome = true ∧
    (nrpnRegisterSetter g o d tg).toList.filter isParamSetter
      = (nrpnRegisterSetter g o d tg).toList ∧
    (nrpnRegisterSetter g o d tg).map paramSetterValue
      = some (d * registerCeiling g o / 127) ∧
    (nrpnRegisterSetter g o d tg).toList.filter isSend = [] := by
  rcases h with ⟨hg, ho⟩ | ⟨hg, ho⟩
  · unfold nrpnRegisterSetter
    rw [if_pos hg]
    unfold registerCeiling
    rw [if_pos hg]
    interval_cases o <;>
      simp [opParamCommit, scale, isParamSetter, paramSetterValue, isSend,
        DEXED_OP_EG_R1, DEXED_OP_EG_R2, DEXED_OP_EG_R3, DEXED_OP_EG_R4,
        DEXED_OP_EG_L1, DEXED_OP_EG_L2, DEXED_OP_EG_L3, DEXED_OP_EG_L4,
        DEXED_OP_LEV_SCL_BRK_PT, DEXED_OP_SCL_LEFT_DEPTH, DEXED_OP_SCL_RGHT_DEPTH,
        DEXED_OP_SCL_LEFT_CURVE, DEXED_OP_SCL_RGHT_CURVE, DEXED_OP_OSC_RATE_SCALE,
        DEXED_OP_AMP_MOD_SENS, DEXED_OP_KEY_VEL_SENS, DEXED_OP_OUTPUT_LEV,
        DEXED_OP_OSC_MODE, DEXED_OP_FREQ_COARSE, DEXED_OP_FREQ_FINE, DEXED_OP_OSC_DETUNE]
  · subst hg
    unfold nrpnRegisterSetter registerCeiling
    norm_num
    interval_cases o <;>
      simp [globalParamCommit, scale, isParamSetter, paramSetterValue, isSend,
        DEXED_PITCH_EG_R1, DEXED_PITCH_EG_R2, DEXED_PITCH_EG_R3, DEXED_PITCH_EG_R4,
        DEXED_PITCH_EG_L1, DEXED_PITCH_EG_L2, DEXED_PITCH_EG_L3, DEXED_PITCH_EG_L4,
        DEXED_ALGORITHM, DEXED_FEEDBACK, DEXED_OSC_KEY_SYNC, DEXED_LFO_SPEED,
        DEXED_LFO_DELAY, DEXED_LFO_PITCH_MOD_DEP, DEXED_LFO_AMP_MOD_DEP, DEXED_LFO_SYNC,
        DEXED_LFO_WAVE, DEXED_LFO_PITCH_MOD_SENS, DEXED_TRANSPOSE]

lemma handleNRPNDataLSB_eq (env : Env) (st : DeviceState) (d tg g o : Nat)
    (hg : st.nrpnOp tg = g) (ho : st.nrpnOffset tg = o) (hv : validRegister g o) :
    handleNRPNDataLSB env st d tg =
      (nrpnRegisterSetter g o d tg).toList ++ SendSystemExclusiveVoice env 0 0 tg := by
  unfold handleNRPNDataLSB nrpnRegisterSetter
  rw [hg, ho]
  rcases hv with ⟨h6, h20⟩ | ⟨h6, h18⟩
  · have hne : ¬ o = MIDI_NRPN_PROGRAM_CHANGE := by
      simp only [MIDI_NRPN_PROGRAM_CHANGE]; omega
    have hne6 : ¬ g = 6 := by omega
    rw [if_neg hne, if_pos h6, if_pos h6, if_neg hne6]
    simp
  · have hne : ¬ o = MIDI_NRPN_PROGRAM_CHANGE := by
      simp only [MIDI_NRPN_PROGRAM_CHANGE]; omega
    have hne6 : ¬ g < 6 := by omega
    rw [if_neg hne, if_neg hne6, if_neg hne6, if_pos h6]
    simp [h6]

lemma filter_map_send {p : Event → Bool} (hp : ∀ d m c, p (Event.send d m c) = false)
    (dump : List Nat) :
    ∀ l : List String, (l.map (fun name => Event.send name dump none)).filter p = [] := by
  intro l
  induction l with
  | nil => rfl
  | cons a rest ih => simp [hp, ih]

lemma filter_map_send_all {p : Event → Bool} (hp : ∀ d m c, p (Event.send d m c) = true)
    (dump : List Nat) :
    ∀ l : List String, (l.map (fun name => Event.send name dump none)).filter p
      = l.map (fun name => Event.send name dump none) := by
  intro l
  induction l with
  | nil => rfl
  | cons a rest ih => simp [hp, ih]

lemma dump_filter_param (env : Env) (tg : Nat) :
    (SendSystemExclusiveVoice env 0 0 tg).filter isParamSetter = [] := by
  unfold SendSystemExclusiveVoice
  exact filter_map_send (fun _ _ _ => rfl) _ _

lemma dump_filter_send (env : Env) (tg : Nat) :
    (SendSystemExclusiveVoice env 0 0 tg).filter isSend
      = SendSystemExclusiveVoice env 0 0 tg := by
  unfold SendSystemExclusiveVoice
  exact filter_map_send_all (fun _ _ _ => rfl) _ _

lemma processAllTGs_state (env : Env) (msg : List Nat) (nCable : Nat)
    (hmsg : ¬ nrpnSelectCC msg) :
    ∀ (l : List Nat) (st : DeviceState) (ev : List Event) (st2 : DeviceState),
      processAllTGs env msg nCable st l = some (ev, st2) → st2 = st := by
  intro l
  induction l with
  | nil =>
    intro st ev st2 h
    simp only [processAllTGs] at h
    simp_all
  | cons a rest ih =>
    intro st ev st2 h
    simp only [processAllTGs] at h
    split at h
    · simp_all
    · rename_i ev1 st1 hp
      split at h
      · simp_all
      · rename_i ev2 st3 hq
        have h1 := processTG_state env st msg nCable a ev1 st1 hmsg hp
        have h2 := ih st1 ev2 st3 hq
        cases h
        exact h2.trans h1

lemma thruEvents_empty (env : Env) (msg : List Nat) (nCable : Nat)
    (h : env.deviceName ≠ env.midiThruIn) : thruEvents env msg nCable = [] := by
  unfold thruEvents
  rw [if_neg (fun hc => h hc.1)]

lemma handler_cc_filter (env : Env) (st : DeviceState) (nCable ch cc v tg : Nat)
    (p : Event → Bool) (hch : ch < 16) (htg : tg < ToneGenerators)
    (hpure : ∀ x, (ccSlot env st ch x cc v).2 = st)
    (hsend : ∀ d m c, p (Event.send d m c) = false)
    (hui : ∀ a b c d, p (Event.uiMidiCmdHandler a b c d) = false)
    (hother : ∀ x, x < ToneGenerators → x ≠ tg →
      ((ccSlot env st ch x cc v).1).filter p = []) :
    (MIDIMessageHandler env st [176 + ch, cc, v] nCable).1.filter p
      = ((ccSlot env st ch tg cc v).1).filter p := by
  rw [MIDIMessageHandler_cc env st nCable ch cc v hch hpure]
  simp only [List.filter_append, List.filter_cons, hui]
  rw [thruEvents_filter env _ nCable p hsend,
    filter_flatMap_single _ p tg _ (List.mem_range.mpr htg) (List.nodup_range _)
      (fun x hxm hx => hother x (List.mem_range.mp hxm) hx)]
  simp

lemma handler_cc_events (env : Env) (st : DeviceState) (nCable ch cc v tg : Nat)
    (hch : ch < 16) (htg : tg < ToneGenerators)
    (hthru : env.deviceName ≠ env.midiThruIn)
    (hpure : ∀ x, (ccSlot env st ch x cc v).2 = st)
    (hother : ∀ x, x < ToneGenerators → x ≠ tg → (ccSlot env st ch x cc v).1 = []) :
    (MIDIMessageHandler env st [176 + ch, cc, v] nCable).1
      = Event.uiMidiCmdHandler ch 176 cc v :: (ccSlot env st ch tg cc v).1 := by
  rw [MIDIMessageHandler_cc env st nCable ch cc v hch hpure]
  rw [thruEvents_empty env _ nCable hthru,
    flatMap_eq_single _ tg _ (List.mem_range.mpr htg) (List.nodup_range _)
      (fun x hxm hx => hother x (List.mem_range.mp hxm) hx)]
  simp

lemma handler_noteOn_filter (env : Env) (st : DeviceState) (nCable ch note vel tg : Nat)
    (p : Event → Bool) (hch : ch < 16) (htg : tg < ToneGenerators)
    (hsend : ∀ d m c, p (Event.send d m c) = false)
    (hui : ∀ a b c d, p (Event.uiMidiCmdHandler a b c d) = false)
    (hother : ∀ x, x < ToneGenerators → x ≠ tg →
      (noteOnSlot st ch note vel x).filter p = []) :
    (MIDIMessageHandler env st [144 + ch, note, vel] nCable).1.filter p
      = (noteOnSlot st ch note vel tg).filter p := by
  rw [MIDIMessageHandler_noteOn env st nCable ch note vel hch]
  simp only [List.filter_append, List.filter_cons, hui]
  rw [thruEvents_filter env _ nCable p hsend,
    filter_flatMap_single _ p tg _ (List.mem_range.mpr htg) (List.nodup_range _)
      (fun x hxm hx => hother x (List.mem_range.mp hxm) hx)]
  simp

/-- C9: for every valid slot index `i` (less than the tone-generator
count) and every channel value `c`, `GetChannel i` invoked after
`SetChannel (i, c)` returns `c`. -/
theorem setChannel_getChannel_roundtrip (st : DeviceState) (i c : Nat)
    (h : i < ToneGenerators) : GetChannel (SetChannel st c i) i = c := by
  unfold GetChannel SetChannel
  simp

theorem setChannel_getChannel_roundtrip_witness :
    GetChannel (SetChannel initialState 5 3) 3 = 5 :=
  setChannel_getChannel_roundtrip initialState 3 5 (by decide)

/-- C3: for every SysEx frame whose classification code is negative or
lies outside all defined ranges (not in 64-77, not 100, not 200, not in
[300,500) or [500,600)), `HandleSystemExclusive` emits no collaborator
call and returns the device state unchanged. -/
theorem sysex_undefined_code_no_effect (env : Env) (st : DeviceState) (msg : List Nat)
    (nCable tg : Nat)
    (h : env.checkSystemExclusive msg tg < 0 ∨
      ¬ definedSysExCode (env.checkSystemExclusive msg tg)) :
    HandleSystemExclusive env st msg nCable tg = some ([], st) := by
  have hnd : ¬ definedSysExCode (env.checkSystemExclusive msg tg) := by
    rcases h with h | h
    · intro hd
      unfold definedSysExCode at hd
      rcases hd with ⟨h1, _⟩ | h1 | h1 | ⟨h1, _⟩ | ⟨h1, _⟩ <;> omega
    · exact h
  simp only [HandleSystemExclusive]
  rw [if_neg fun hc => hnd (Or.inl hc),
    if_neg fun hc => hnd (Or.inr (Or.inl hc)),
    if_neg fun hc => hnd (Or.inr (Or.inr (Or.inr (Or.inl hc)))),
    if_neg fun hc => hnd (Or.inr (Or.inr (Or.inr (Or.inr hc))))]

theorem sysex_undefined_code_no_effect_witness :
    HandleSystemExclusive envB initialState [0xF0, 0x43, 0x00, 0xF7] 0 2
      = some ([], initialState) :=
  sysex_undefined_code_no_effect envB initialState [0xF0, 0x43, 0x00, 0xF7] 0 2
    (Or.inl (by norm_num [envB]))

/-- C5 (amended): for every SysEx frame classified in `[500,600)` the
handler broadcasts the 163-byte dump of the slot's current voice to every
registered device; the requested voice index `code - 500` is ignored (the
result does not depend on it) and the `Send` calls omit the port argument
instead of passing the originating port. -/
theorem sysex_voice_request_broadcast (env : Env) (st : DeviceState) (msg : List Nat)
    (nCable tg : Nat) (code : Int) (hcode : env.checkSystemExclusive msg tg = code)
    (h5 : 500 ≤ code) (h6 : code < 600) :
    HandleSystemExclusive env st msg nCable tg =
      some (env.registry.map (fun name =>
        Event.send name (List.ofFn (env.getSysExVoiceDump tg)) none), st) ∧
    (List.ofFn (env.getSysExVoiceDump tg)).length = 163 := by
  constructor
  · simp only [HandleSystemExclusive, SendSystemExclusiveVoice, hcode]
    rw [if_neg (by omega), if_neg (by omega), if_neg (by omega), if_pos ⟨h5, h6⟩]
  · rw [List.length_ofFn]

/-- C5, counterexample to the claim as stated: a request arriving on port
1 is answered by a `Send` that omits the port argument (modelled as
`none`), so no dump is sent "on the originating port". -/
theorem sysex_voice_request_counterexample :
    HandleSystemExclusive envC initialState [0xF0, 0x43, 0x20, 0x00, 0xF7] 1 0
      = some ([Event.send "a" (List.ofFn (envC.getSysExVoiceDump 0)) none],
          initialState) ∧
    (List.ofFn (envC.getSysExVoiceDump 0)).length = 163 ∧
    Event.send "a" (List.ofFn (envC.getSysExVoiceDump 0)) (some 1) ∉
      [Event.send "a" (List.ofFn (envC.getSysExVoiceDump 0)) none] := by
  refine ⟨rfl, by rw [List.length_ofFn], ?_⟩
  intro hmem
  rw [List.mem_singleton] at hmem
  exact Option.noConfusion (Event.send.inj hmem).2.2

theorem sysex_voice_request_broadcast_witness :
    HandleSystemExclusive envC initialState [0xF0, 0x43, 0x20, 0x01, 0xF7] 0 3 =
      some (envC.registry.map (fun name =>
        Event.send name (List.ofFn (envC.getSysExVoiceDump 3)) none), initialState) ∧
    (List.ofFn (envC.getSysExVoiceDump 3)).length = 163 :=
  sysex_voice_request_broadcast envC initialState [0xF0, 0x43, 0x20, 0x01, 0xF7] 0 3 505
    rfl (by norm_num) (by norm_num)

/-- C4: a device whose name is the configured Thru input forwards every
received buffer — of any length, including 0 and 1 — byte-for-byte to the
registered Thru-output device on the same cable, as the first collaborator
call, before the length-< 2 gate can drop the message and regardless of
whether the buffer parses. -/
theorem thru_forward_unconditional (env : Env) (st : DeviceState) (msg : List Nat)
    (nCable : Nat) (h1 : env.deviceName = env.midiThruIn)
    (h2 : env.registry.contains env.midiThruOut = true) :
    (∃ rest, (MIDIMessageHandler env st msg nCable).1
      = Event.send env.midiThruOut msg (some nCable) :: rest) ∧
    (msg.length < 2 →
      MIDIMessageHandler env st msg nCable
        = ([Event.send env.midiThruOut msg (some nCable)], some st)) := by
  have ht : thruEvents env msg nCable
      = [Event.send env.midiThruOut msg (some nCable)] := by
    unfold thruEvents
    rw [if_pos ⟨h1, h2⟩]
  constructor
  · simp only [MIDIMessageHandler, ht]
    repeat' split
    all_goals exact ⟨_, rfl⟩
  · intro hlen
    simp only [MIDIMessageHandler, ht, if_pos hlen]

theorem thru_forward_unconditional_witness :
    (∃ rest, (MIDIMessageHandler envA initialState [0xF8] 7).1
      = Event.send "ttyS1" [0xF8] (some 7) :: rest) ∧
    (([0xF8] : List Nat).length < 2 →
      MIDIMessageHandler envA initialState [0xF8] 7
        = ([Event.send "ttyS1" [0xF8] (some 7)], some initialState)) :=
  thru_forward_unconditional envA initialState [0xF8] 7 rfl (by decide)

/-- C1 (code bug): the master-volume extraction combines the two payload
fields with a bitwise AND of disjoint bit ranges (and masks with 0x7c),
so the value passed to `setMasterVolume` is always 0; the claimed value —
the 14-bit combination low + (high <<< 7) over 2^14 — is 16383/16384 at
the all-ones payload, which the code does not produce. -/
theorem master_volume_always_zero :
    (∀ b5 b6 : Nat, masterVolumeArg b5 b6 = 0) ∧
    MIDIMessageHandler envB initialState
        [0xF0, 0x7F, 0x7F, 0x04, 0x01, 0x7F, 0x7F, 0xF7] 0
      = ([Event.setMasterVolume 0], some initialState) ∧
    specMasterVolume 0x7F 0x7F ≠ ((masterVolumeArg 0x7F 0x7F : Nat) : ℚ) := by
  have hand : ∀ b5 b6 : Nat, (b5 &&& 0x7c) &&& ((b6 &&& 0x7c) <<< 7) = 0 := by
    intro b5 b6
    apply Nat.eq_of_testBit_eq
    intro i
    simp only [Nat.testBit_and, Nat.testBit_shiftLeft, Nat.zero_testBit]
    rcases lt_or_le i 7 with h | h
    · have h0 : decide (7 ≤ i) = false := by simp; omega
      simp [h0]
    · have h2 : (0x7c : Nat) < 2 ^ i := by
        calc (0x7c : Nat) < 2 ^ 7 := by norm_num
          _ ≤ 2 ^ i := Nat.pow_le_pow_right (by norm_num) h
      have h3 : Nat.testBit 0x7c i = false := Nat.testBit_lt_two_pow h2
      simp [h3]
  refine ⟨?_, ?_, ?_⟩
  · intro b5 b6
    unfold masterVolumeArg
    rw [hand]
    rfl
  · rfl
  · have e1 : masterVolumeArg 0x7F 0x7F = 0 := by decide
    have e2 : ((0x7F &&& 0x7F) + ((0x7F &&& 0x7F) <<< 7) : Nat) = 16383 := by decide
    unfold specMasterVolume
    rw [e1, e2]
    norm_num

/-- C10: a buffer of length 2 whose first byte is the SysEx begin marker
passes the length-≥ 2 gate, yet the master-volume pattern check reads
indices 3 and 4 past the end of the buffer: in the total embedding the
check returns `none` and the dispatcher aborts with the out-of-bounds
marker; lengths 3 and 4 (the latter with byte 3 = 0x04) behave the same. -/
theorem master_volume_check_out_of_bounds :
    ¬ (([0xF0, 0x00] : List Nat).length < 2) ∧
    masterVolumeCheck [0xF0, 0x00] = none ∧
    masterVolumeCheck [0xF0, 0x00, 0x00] = none ∧
    masterVolumeCheck [0xF0, 0x00, 0x00, 0x04] = none ∧
    MIDIMessageHandler envB initialState [0xF0, 0x00] 0 = ([], none) :=
  ⟨by decide, by decide, by decide, by decide, rfl⟩

/-- C6: a Note-On of length 3 on a channel matching a slot (or with the
slot in Omni) produces, for that slot, exactly one key-down with the
message's note, velocity and slot and no key-up when the velocity is
positive, and exactly one key-up with the note and slot and no key-down
when the velocity is zero. -/
theorem note_on_dispatch (env : Env) (st : DeviceState) (nCable ch note vel tg : Nat)
    (hch : ch < 16) (htg : tg < ToneGenerators) (hvel : vel ≤ 127)
    (hmatch : st.channelMap tg = ch ∨ st.channelMap tg = OmniMode) :
    (0 < vel →
      (MIDIMessageHandler env st [144 + ch, note, vel] nCable).1.filter (isKeydownFor tg)
          = [Event.keydown note vel tg] ∧
      (MIDIMessageHandler env st [144 + ch, note, vel] nCable).1.filter (isKeyupFor tg)
          = []) ∧
    (vel = 0 →
      (MIDIMessageHandler env st [144 + ch, note, vel] nCable).1.filter (isKeyupFor tg)
          = [Event.keyup note tg] ∧
      (MIDIMessageHandler env st [144 + ch, note, vel] nCable).1.filter (isKeydownFor tg)
          = []) := by
  have hkd : ∀ x, x < ToneGenerators → x ≠ tg →
      (noteOnSlot st ch note vel x).filter (isKeydownFor tg) = [] := by
    intro x _ hx
    unfold noteOnSlot
    repeat' split
    all_goals simp [isKeydownFor, hx]
  have hku : ∀ x, x < ToneGenerators → x ≠ tg →
      (noteOnSlot st ch note vel x).filter (isKeyupFor tg) = [] := by
    intro x _ hx
    unfold noteOnSlot
    repeat' split
    all_goals simp [isKeyupFor, hx]
  have EKD := handler_noteOn_filter env st nCable ch note vel tg (isKeydownFor tg)
      hch htg (fun _ _ _ => rfl) (fun _ _ _ _ => rfl) hkd
  have EKU := handler_noteOn_filter env st nCable ch note vel tg (isKeyupFor tg)
      hch htg (fun _ _ _ => rfl) (fun _ _ _ _ => rfl) hku
  constructor
  · intro hpos
    rw [EKD, EKU]
    unfold noteOnSlot
    rw [if_pos hmatch, if_pos hpos, if_pos hvel]
    constructor <;> simp [isKeydownFor, isKeyupFor]
  · intro hzero
    rw [EKD, EKU]
    unfold noteOnSlot
    subst hzero
    rw [if_pos hmatch, if_neg (lt_irrefl 0)]
    constructor <;> simp [isKeydownFor, isKeyupFor]

theorem note_on_dispatch_witness :
    ((MIDIMessageHandler envB stA [144 + 5, 60, 100] 0).1.filter (isKeydownFor 2)
        = [Event.keydown 60 100 2] ∧
      (MIDIMessageHandler envB stA [144 + 5, 60, 100] 0).1.filter (isKeyupFor 2) = []) ∧
    ((MIDIMessageHandler envB stA [144 + 5, 61, 0] 0).1.filter (isKeyupFor 2)
        = [Event.keyup 61 2] ∧
      (MIDIMessageHandler envB stA [144 + 5, 61, 0] 0).1.filter (isKeydownFor 2) = []) :=
  ⟨(note_on_dispatch envB stA 0 5 60 100 2 (by decide) (by decide) (by decide)
      (Or.inl (by decide))).1 (by decide),
    (note_on_dispatch envB stA 0 5 61 0 2 (by decide) (by decide) (by decide)
      (Or.inl (by decide))).2 rfl⟩

/-- C7: a Control-Change 94 (detune) on a matching slot maps value 0 to
`SetMasterTune 0`, and every value in [1,127] to
`SetMasterTune (maplong v 1 127 (-99) 99)`, the linear rescale onto
[-99,99] whose endpoints are `maplong 1 .. = -99` and `maplong 127 .. = 99`. -/
theorem cc94_detune (env : Env) (st : DeviceState) (nCable ch tg : Nat)
    (hch : ch < 16) (htg : tg < ToneGenerators)
    (hmatch : st.channelMap tg = ch ∨ st.channelMap tg = OmniMode) :
    ((MIDIMessageHandler env st [176 + ch, 94, 0] nCable).1.filter (isMasterTuneFor tg)
        = [Event.setMasterTune 0 tg]) ∧
    (∀ v : Nat, 1 ≤ v → v ≤ 127 →
      (MIDIMessageHandler env st [176 + ch, 94, v] nCable).1.filter (isMasterTuneFor tg)
        = [Event.setMasterTune (maplong v 1 127 (-99) 99) tg]) ∧
    maplong 1 1 127 (-99) 99 = -99 ∧
    maplong 127 1 127 (-99) 99 = 99 := by
  have hpure : ∀ v : Nat, ∀ x, (ccSlot env st ch x 94 v).2 = st := by
    intro v x
    unfold ccSlot
    split
    · exact handleControlChange_state env st x 94 v (by decide) (by decide)
    · rfl
  have hcc : ∀ v : Nat, ∀ x, handleControlChange env st x 94 v
      = (if v = 0 then [Event.setMasterTune 0 x]
         else [Event.setMasterTune (maplong v 1 127 (-99) 99) x], st) := by
    intro v x
    unfold handleControlChange
    norm_num [MIDI_CC_MODULATION, MIDI_CC_FOOT_PEDAL, MIDI_CC_BREATH_CONTROLLER,
      MIDI_CC_VOLUME, MIDI_CC_PAN_POSITION, MIDI_CC_BANK_SELECT_MSB,
      MIDI_CC_BANK_SELECT_LSB, MIDI_CC_BANK_SUSTAIN, MIDI_CC_RESONANCE,
      MIDI_CC_FREQUENCY_CUTOFF, MIDI_CC_REVERB_LEVEL, MIDI_CC_DETUNE_LEVEL]
  have hother : ∀ v : Nat, ∀ x, x < ToneGenerators → x ≠ tg →
      ((ccSlot env st ch x 94 v).1).filter (isMasterTuneFor tg) = [] := by
    intro v x _ hx
    unfold ccSlot
    split
    · rw [hcc v x]
      split <;> simp [isMasterTuneFor, hx]
    · rfl
  have hslot : ∀ v : Nat, (ccSlot env st ch tg 94 v).1
      = if v = 0 then [Event.setMasterTune 0 tg]
        else [Event.setMasterTune (maplong v 1 127 (-99) 99) tg] := by
    intro v
    unfold ccSlot
    rw [if_pos hmatch, hcc v tg]
  refine ⟨?_, ?_, by decide, by decide⟩
  · rw [handler_cc_filter env st nCable ch 94 0 tg (isMasterTuneFor tg) hch htg
      (hpure 0) (fun _ _ _ => rfl) (fun _ _ _ _ => rfl) (hother 0), hslot 0]
    simp [isMasterTuneFor]
  · intro v h1 h127
    rw [handler_cc_filter env st nCable ch 94 v tg (isMasterTuneFor tg) hch htg
      (hpure v) (fun _ _ _ => rfl) (fun _ _ _ _ => rfl) (hother v), hslot v,
      if_neg (by omega)]
    simp [isMasterTuneFor]

theorem cc94_detune_witness :
    ((MIDIMessageHandler envB stA [176 + 5, 94, 0] 0).1.filter (isMasterTuneFor 2)
        = [Event.setMasterTune 0 2]) ∧
    ((MIDIMessageHandler envB stA [176 + 5, 94, 127] 0).1.filter (isMasterTuneFor 2)
        = [Event.setMasterTune (maplong 127 1 127 (-99) 99) 2]) :=
  ⟨(cc94_detune envB stA 0 5 2 (by decide) (by decide) (Or.inl (by decide))).1,
    (cc94_detune envB stA 0 5 2 (by decide) (by decide) (Or.inl (by decide))).2.1 127
      (by decide) (by decide)⟩

/-- C2: with slot `tg` the only slot matching channel `ch`, its stored
NRPN cursor at a valid register `(g, o)` (`g ≤ 6`), and the device not in
Thru mode, a data-LSB (CC 38) with value `d` commits exactly one
parameter setter — the table entry for `(g, o)`, whose value is
`d * ceiling / 127` for that register's ceiling — and sends exactly one
voice dump to every registered device, leaving the state unchanged; and a
param-MSB (CC 99) with value above 6 leaves the stored group unchanged. -/
theorem nrpn_data_commit (env : Env) (st : DeviceState) (nCable ch tg d g o : Nat)
    (hch : ch < 16) (htg : tg < ToneGenerators)
    (hthru : env.deviceName ≠ env.midiThruIn)
    (hmatch : st.channelMap tg = ch ∨ st.channelMap tg = OmniMode)
    (hexcl : ∀ x, x < ToneGenerators → x ≠ tg →
      st.channelMap x ≠ ch ∧ st.channelMap x ≠ OmniMode)
    (hg : st.nrpnOp tg = g) (ho : st.nrpnOffset tg = o)
    (hvalid : validRegister g o) :
    ((MIDIMessageHandler env st [176 + ch, 38, d] nCable).1.filter isParamSetter
        = (nrpnRegisterSetter g o d tg).toList) ∧
    (nrpnRegisterSetter g o d tg).isSome = true ∧
    ((nrpnRegisterSetter g o d tg).map paramSetterValue
        = some (d * registerCeiling g o / 127)) ∧
    ((MIDIMessageHandler env st [176 + ch, 38, d] nCable).1.filter isSend
        = env.registry.map (fun name =>
            Event.send name (List.ofFn (env.getSysExVoiceDump tg)) none)) ∧
    ((MIDIMessageHandler env st [176 + ch, 38, d] nCable).2 = some st) ∧
    (∀ v : Nat, 6 < v →
      (MIDIMessageHandler env st [176 + ch, 99, v] nCable).2 = some st) := by
  obtain ⟨hsome, hfilterP, hvalue, hfilterS⟩ := nrpnRegisterSetter_spec g o d tg hvalid
  have hpure : ∀ x, (ccSlot env st ch x 38 d).2 = st := by
    intro x
    unfold ccSlot
    split
    · exact handleControlChange_state env st x 38 d (by decide) (by decide)
    · rfl
  have hcc : handleControlChange env st tg 38 d = (handleNRPNDataLSB env st d tg, st) := by
    unfold handleControlChange
    norm_num [MIDI_CC_MODULATION, MIDI_CC_FOOT_PEDAL, MIDI_CC_BREATH_CONTROLLER,
      MIDI_CC_VOLUME, MIDI_CC_PAN_POSITION, MIDI_CC_BANK_SELECT_MSB,
      MIDI_CC_BANK_SELECT_LSB, MIDI_CC_BANK_SUSTAIN, MIDI_CC_RESONANCE,
      MIDI_CC_FREQUENCY_CUTOFF, MIDI_CC_REVERB_LEVEL, MIDI_CC_DETUNE_LEVEL,
      MIDI_CC_ALL_SOUND_OFF, MIDI_CC_ALL_NOTES_OFF, MIDI_CC_NRPN_PARAM_MSB,
      MIDI_CC_NRPN_PARAM_LSB, MIDI_CC_NRPN_DATA_LSB]
  have hother : ∀ x, x < ToneGenerators → x ≠ tg → (ccSlot env st ch x 38 d).1 = [] := by
    intro x hlt hx
    unfold ccSlot
    rw [if_neg]
    intro hor
    rcases hor with h1 | h1
    · exact (hexcl x hlt hx).1 h1
    · exact (hexcl x hlt hx).2 h1
  have hcommit := handleNRPNDataLSB_eq env st d tg g o hg ho hvalid
  have hev := handler_cc_events env st nCable ch 38 d tg hch htg hthru hpure hother
  have hslot : (ccSlot env st ch tg 38 d).1 = handleNRPNDataLSB env st d tg := by
    unfold ccSlot
    rw [if_pos hmatch, hcc]
  rw [hslot, hcommit] at hev
  refine ⟨?_, hsome, hvalue, ?_, ?_, ?_⟩
  · rw [hev]
    simp only [List.filter_cons, List.filter_append]
    rw [hfilterP, dump_filter_param]
    simp [isParamSetter]
  · rw [hev]
    simp only [List.filter_cons, List.filter_append]
    rw [hfilterS, dump_filter_send]
    rw [show isSend (Event.uiMidiCmdHandler ch 176 38 d) = false from rfl]
    simp only [Bool.false_eq_true, if_false, List.nil_append, SendSystemExclusiveVoice]
  · rw [MIDIMessageHandler_cc env st nCable ch 38 d hch hpure]
  · intro v hv
    have hpure99 : ∀ x, (ccSlot env st ch x 99 v).2 = st := by
      intro x
      unfold ccSlot
      split
      · exact handleControlChange_99_state env st x v hv
      · rfl
    rw [MIDIMessageHandler_cc env st nCable ch 99 v hch hpure99]

theorem nrpn_data_commit_witness :
    ((MIDIMessageHandler envB stA [176 + 5, 38, 64] 0).1.filter isParamSetter
        = (nrpnRegisterSetter 3 16 64 2).toList) ∧
    (nrpnRegisterSetter 3 16 64 2).isSome = true ∧
    ((nrpnRegisterSetter 3 16 64 2).map paramSetterValue
        = some (64 * registerCeiling 3 16 / 127)) ∧
    ((MIDIMessageHandler envB stA [176 + 5, 38, 64] 0).1.filter isSend
        = envB.registry.map (fun name =>
            Event.send name (List.ofFn (envB.getSysExVoiceDump 2)) none)) ∧
    ((MIDIMessageHandler envB stA [176 + 5, 38, 64] 0).2 = some stA) ∧
    ((MIDIMessageHandler envB stA [176 + 5, 99, 100] 0).2 = some stA) :=
  have h := nrpn_data_commit envB stA 0 5 2 64 3 16 (by decide) (by decide)
    (by decide) (Or.inl (by decide)) (by decide) (by decide) (by decide)
    (Or.inl (by decide))
  ⟨h.1, h.2.1, h.2.2.1, h.2.2.2.1, h.2.2.2.2.1, h.2.2.2.2.2 100 (by decide)⟩

/-- C8: a CC 38 data-LSB commit returns the device state — and so the
slot's stored NRPN group and offset — unchanged, enabling repeated data
writes to the same register; and for every message that is not a CC 99 /
CC 98 cursor selection, a completed dispatch leaves every slot's stored
group and offset exactly as before. -/
theorem nrpn_cursor_persistence :
    (∀ (env : Env) (st : DeviceState) (nCable ch d : Nat), ch < 16 →
      (MIDIMessageHandler env st [176 + ch, 38, d] nCable).2 = some st) ∧
    (∀ (env : Env) (st : DeviceState) (msg : List Nat) (nCable : Nat)
        (st2 : DeviceState), ¬ nrpnSelectCC msg →
      (MIDIMessageHandler env st msg nCable).2 = some st2 →
      st2.nrpnOp = st.nrpnOp ∧ st2.nrpnOffset = st.nrpnOffset) := by
  constructor
  · intro env st nCable ch d hch
    have hpure : ∀ x, (ccSlot env st ch x 38 d).2 = st := by
      intro x
      unfold ccSlot
      split
      · exact handleControlChange_state env st x 38 d (by decide) (by decide)
      · rfl
    rw [MIDIMessageHandler_cc env st nCable ch 38 d hch hpure]
  · intro env st msg nCable st2 hmsg h
    simp only [MIDIMessageHandler] at h
    split at h
    · simp at h
      rw [← h]
      exact ⟨rfl, rfl⟩
    · split at h
      · simp at h
      · split at h
        · simp at h
          rw [← h]
          exact ⟨rfl, rfl⟩
        · simp at h
      · split at h
        · simp at h
        · split at h
          · simp at h
          · rename_i evs st3 heq
            simp at h
            have h3 := processAllTGs_state env msg nCable hmsg
              (List.range ToneGenerators) st evs st3 heq
            rw [← h, h3]
            exact ⟨rfl, rfl⟩

theorem nrpn_cursor_persistence_witness :
    ((MIDIMessageHandler envB stA [176 + 5, 38, 64] 0).2 = some stA) ∧
    (stA.nrpnOp = stA.nrpnOp ∧ stA.nrpnOffset = stA.nrpnOffset) :=
  ⟨nrpn_cursor_persistence.1 envB stA 0 5 64 (by decide),
    nrpn_cursor_persistence.2 envB stA [176 + 5, 7, 100] 0 stA (by decide) rfl⟩

end MiniDexed
